import Mathlib

/-!
# Verification of the JMDict XML wrapper

A shallow embedding of `src/jmdict/xml/models.py` and
`src/jmdict/xml/engine.py`, together with theorems settling the frozen
claims about that code.

Modelling conventions:
* Parsed XML markup is modelled by the `Node` tree (tag name, own text,
  attribute list, ordered children); BeautifulSoup's recursive
  `find_all` / first-descendant attribute access / `find_parent` are
  modelled over that tree.
* Python exceptions are modelled by `PyExc`; fallible code returns
  `Except PyExc _`.  `PyExc` also carries constructors for the
  `TagMismatchError` and `NotFoundError` classes named by the design
  document, which do not exist in the source; they are present only so
  that statements can distinguish them from the `ValueError` the source
  actually raises.
* Python `str` values are Lean `String`s; `str.lower` is modelled by
  ASCII case folding (`String.toLower`), which agrees with Python on
  every string appearing in the claims.
* Python `int`/`str` conversions are modelled by `pyStr` / `pyInt?`
  (decimal digits with an optional sign; exotic `int()` inputs such as
  underscores or surrounding whitespace are outside the model).
-/

namespace JMDictXml

/-- Python exception values.  The first four classes are raised by the
source; `tagMismatchError` and `notFoundError` are the classes named by
the design document (no such classes exist in the source). -/
inductive PyExc where
  | valueError (msg : String)
  | indexError (msg : String)
  | attributeError (msg : String)
  | typeError (msg : String)
  | tagMismatchError (msg : String)
  | notFoundError (msg : String)
  deriving Repr, DecidableEq

/-- `beginsWithChars n h` holds when the char list `h` starts with `n`. -/
def beginsWithChars : List Char → List Char → Bool
  | [], _ => true
  | _ :: _, [] => false
  | a :: as, b :: bs => a == b && beginsWithChars as bs

/-- `containsChars n h`: the char list `n` occurs contiguously in `h`.
Embeds Python's substring test `n in h`. -/
def containsChars (needle : List Char) : List Char → Bool
  | [] => needle.isEmpty
  | c :: rest => beginsWithChars needle (c :: rest) || containsChars needle rest

/-- Python's `needle in hay` on strings (substring containment). -/
def pyIn (needle hay : String) : Bool :=
  containsChars needle.data hay.data

/-- Python's `str.lower`, modelled as ASCII case folding. -/
def pyLower (s : String) : String :=
  String.mk (s.data.map Char.toLower)

/-- Decimal digit list of a natural number, most significant first,
with explicit fuel (any fuel above the number is enough; the fuel keeps
the recursion structural so that terms evaluate by reduction). -/
def natDigitsF : Nat → Nat → List Nat
  | 0, _ => []
  | fuel + 1, n =>
    if n < 10 then [n]
    else natDigitsF fuel (n / 10) ++ [n % 10]

/-- Decimal digit list of a natural number, most significant first. -/
def natDigits (n : Nat) : List Nat :=
  natDigitsF (n + 1) n

/-- Value of a decimal digit list (most significant first). -/
def digitsVal (ds : List Nat) : Nat :=
  ds.foldl (fun a d => a * 10 + d) 0

/-- Render one decimal digit as a character. -/
def digitChar (d : Nat) : Char := Char.ofNat (48 + d)

/-- Python's `str` on a natural number. -/
def pyStrNat (n : Nat) : String :=
  String.mk ((natDigits n).map digitChar)

/-- Python's `str` on an integer (decimal, `-` sign for negatives). -/
def pyStr (i : Int) : String :=
  if i < 0 then "-" ++ pyStrNat i.natAbs else pyStrNat i.toNat

/-- Numeric value of one decimal digit character, `none` otherwise. -/
def digitVal (c : Char) : Option Nat :=
  if 48 ≤ c.toNat && c.toNat ≤ 57 then some (c.toNat - 48) else none

/-- Parse a non-empty all-digit char list (most significant first). -/
def parseDigits : List Char → Option Nat
  | [] => none
  | cs => cs.foldl (fun acc c =>
      match acc, digitVal c with
      | some a, some d => some (a * 10 + d)
      | _, _ => none) (some 0)

/-- Python's `int(s)` on a decimal string with an optional sign
(whitespace and underscore forms are outside the model). -/
def pyIntChars : List Char → Option Int
  | [] => none
  | c :: rest =>
    if c = '-' then (parseDigits rest).map (fun n => -(Int.ofNat n))
    else if c = '+' then (parseDigits rest).map (fun n => Int.ofNat n)
    else (parseDigits (c :: rest)).map (fun n => Int.ofNat n)

def pyInt? (s : String) : Option Int :=
  pyIntChars s.data

theorem natDigitsF_irrel (n : Nat) : ∀ fuel fuel', n < fuel → n < fuel' →
    natDigitsF fuel n = natDigitsF fuel' n := by
  induction n using Nat.strong_induction_on with
  | _ n ih =>
    intro fuel fuel' h h'
    match fuel, fuel' with
    | 0, _ => omega
    | _ + 1, 0 => omega
    | f + 1, f' + 1 =>
      rw [natDigitsF, natDigitsF]
      by_cases h10 : n < 10
      · rw [if_pos h10, if_pos h10]
      · have hdiv : n / 10 < n := Nat.div_lt_self (by omega) (by omega)
        rw [if_neg h10, if_neg h10,
          ih (n / 10) hdiv f f' (by omega) (by omega)]

theorem natDigits_eq (n : Nat) :
    natDigits n = if n < 10 then [n] else natDigits (n / 10) ++ [n % 10] := by
  by_cases h10 : n < 10
  · rw [natDigits, natDigitsF, if_pos h10, if_pos h10]
  · have hdiv : n / 10 < n := Nat.div_lt_self (by omega) (by omega)
    have h1 : natDigits n = natDigitsF (n + 1) n := rfl
    have h2 : natDigitsF (n + 1) n = natDigitsF n (n / 10) ++ [n % 10] := by
      rw [natDigitsF, if_neg h10]
    have h3 : natDigitsF n (n / 10) = natDigits (n / 10) :=
      natDigitsF_irrel (n / 10) n (n / 10 + 1) (by omega) (by omega)
    rw [h1, h2, h3, if_neg h10]

theorem natDigits_lt (n : Nat) : ∀ d ∈ natDigits n, d < 10 := by
  induction n using Nat.strong_induction_on with
  | _ n ih =>
    rw [natDigits_eq]
    split
    · intro d hd
      simp only [List.mem_singleton] at hd
      omega
    · intro d hd
      rcases List.mem_append.mp hd with h | h
      · exact ih (n / 10) (Nat.div_lt_self (by omega) (by omega)) d h
      · simp only [List.mem_singleton] at h
        omega

theorem natDigits_ne_nil (n : Nat) : natDigits n ≠ [] := by
  rw [natDigits_eq]
  split
  · simp
  · simp

theorem digitsVal_natDigits (n : Nat) : digitsVal (natDigits n) = n := by
  induction n using Nat.strong_induction_on with
  | _ n ih =>
    rw [natDigits_eq]
    split
    · simp [digitsVal]
    · have h1 : digitsVal (natDigits (n / 10) ++ [n % 10])
          = digitsVal (natDigits (n / 10)) * 10 + n % 10 := by
        simp [digitsVal, List.foldl_append]
      rw [h1, ih (n / 10) (Nat.div_lt_self (by omega) (by omega))]
      omega

theorem digitVal_digitChar : ∀ d < 10, digitVal (digitChar d) = some d := by decide

theorem digitChar_ne_dash : ∀ d < 10, digitChar d ≠ '-' ∧ digitChar d ≠ '+' := by decide

theorem parse_fold_digits (ds : List Nat) (h : ∀ d ∈ ds, d < 10) (a : Nat) :
    (ds.map digitChar).foldl (fun acc c =>
        match acc, digitVal c with
        | some a, some d => some (a * 10 + d)
        | _, _ => none) (some a)
      = some (ds.foldl (fun x d => x * 10 + d) a) := by
  induction ds generalizing a with
  | nil => rfl
  | cons d rest ih =>
    have hd : d < 10 := h d (List.mem_cons_self _ _)
    simp only [List.map_cons, List.foldl_cons, digitVal_digitChar d hd]
    exact ih (fun x hx => h x (List.mem_cons_of_mem _ hx)) (a * 10 + d)

theorem parseDigits_natDigits (n : Nat) :
    parseDigits ((natDigits n).map digitChar) = some n := by
  cases hnd : natDigits n with
  | nil => exact absurd hnd (natDigits_ne_nil n)
  | cons d rest =>
    have hlt : ∀ x ∈ d :: rest, x < 10 := by
      rw [← hnd]; exact natDigits_lt n
    have : parseDigits ((d :: rest).map digitChar)
        = ((d :: rest).map digitChar).foldl (fun acc c =>
            match acc, digitVal c with
            | some a, some x => some (a * 10 + x)
            | _, _ => none) (some 0) := by
      rfl
    rw [this, parse_fold_digits (d :: rest) hlt 0]
    have : (d :: rest).foldl (fun x y => x * 10 + y) 0 = digitsVal (d :: rest) := rfl
    rw [this, ← hnd, digitsVal_natDigits]

theorem pyInt?_pyStrNat (n : Nat) : pyInt? (pyStrNat n) = some ((n : Int)) := by
  have hdata : (pyStrNat n).data = (natDigits n).map digitChar := rfl
  cases hnd : natDigits n with
  | nil => exact absurd hnd (natDigits_ne_nil n)
  | cons d rest =>
    have hd10 : d < 10 := by
      have := natDigits_lt n d
      rw [hnd] at this
      exact this (List.mem_cons_self _ _)
    have hchars : (pyStrNat n).data = digitChar d :: rest.map digitChar := by
      rw [hdata, hnd, List.map_cons]
    have hne := digitChar_ne_dash d hd10
    have hparse := parseDigits_natDigits n
    rw [hnd, List.map_cons] at hparse
    rw [pyInt?, hchars, pyIntChars, if_neg hne.1, if_neg hne.2, hparse]
    rfl

theorem pyInt?_pyStr (i : Int) : pyInt? (pyStr i) = some i := by
  rw [pyStr]
  split
  · rename_i hneg
    have hdata : ("-" ++ pyStrNat i.natAbs).data
        = '-' :: (natDigits i.natAbs).map digitChar := by
      rw [String.data_append]
      rfl
    have hred : pyInt? ("-" ++ pyStrNat i.natAbs)
        = (parseDigits ((natDigits i.natAbs).map digitChar)).map
            (fun n => -(Int.ofNat n)) := by
      rw [pyInt?, hdata, pyIntChars, if_pos rfl]
    rw [hred, parseDigits_natDigits]
    simp only [Option.map_some']
    congr 1
    simp only [Int.ofNat_eq_coe]
    omega
  · rename_i hpos
    rw [pyInt?_pyStrNat]
    congr 1
    omega

/-- Decidable equality of `Except` results (needed to evaluate concrete
runs of the embedded functions). -/
instance {ε α : Type} [DecidableEq ε] [DecidableEq α] :
    DecidableEq (Except ε α) := fun x y =>
  match x, y with
  | .ok a, .ok b =>
    if h : a = b then .isTrue (by rw [h]) else .isFalse (by simp [h])
  | .error a, .error b =>
    if h : a = b then .isTrue (by rw [h]) else .isFalse (by simp [h])
  | .ok _, .error _ => .isFalse (by simp)
  | .error _, .ok _ => .isFalse (by simp)

/-! ## Parsed markup tree (the BeautifulSoup collaborator) -/

/-- One parsed markup node: tag name, its own direct text, attributes
and ordered children.  The node's full `.text` is its own text followed
by the text of all descendants in document order. -/
structure Node where
  name : String
  ownText : String
  attrs : List (String × String)
  children : List Node
  deriving Repr

mutual

/-- All strict descendants of one node, in document order. -/
def nodeDesc : Node → List Node
  | ⟨_, _, _, cs⟩ => descList cs

/-- All strict descendants of the nodes of a list, in document
(pre-order) order, each node listed before its own descendants. -/
def descList : List Node → List Node
  | [] => []
  | c :: cs => c :: (nodeDesc c ++ descList cs)

end

/-- BeautifulSoup `.text`: concatenated text in document order. -/
def Node.text (n : Node) : String :=
  n.ownText ++ String.join ((descList n.children).map (fun c => c.ownText))

/-- BeautifulSoup `find_all(tag)`: all descendants with the given tag
name, in document order. -/
def Node.findAll (n : Node) (tag : String) : List Node :=
  (descList n.children).filter (fun c => c.name == tag)

/-- BeautifulSoup attribute access / `find(tag)`: the first descendant
with the given tag name, or `None`. -/
def Node.findFirst (n : Node) (tag : String) : Option Node :=
  (n.findAll tag).head?

mutual

/-- Descendants-with-ancestors of one node's children, with the node
itself pushed on the ancestor chain. -/
def nodeDescAnc (anc : List Node) : Node → List (Node × List Node)
  | ⟨nm, tx, ats, cs⟩ => descAnc (⟨nm, tx, ats, cs⟩ :: anc) cs

/-- All strict descendants of the nodes of a list (document order),
each paired with its ancestor chain, nearest ancestor first.  `anc` is
the ancestor chain shared by the nodes of the list. -/
def descAnc (anc : List Node) : List Node → List (Node × List Node)
  | [] => []
  | c :: cs => (c, anc) :: (nodeDescAnc anc c ++ descAnc anc cs)

end

/-- BeautifulSoup `find_parent(tag)`: nearest ancestor with the given
tag name, or `None`. -/
def findParent (ancestors : List Node) (tag : String) : Option Node :=
  (ancestors.filter (fun a => a.name == tag)).head?

/-! ## Python value formatting (f-strings, `repr` of lists/dicts) -/

/-- A single-quote character (written via its code point). -/
def sqChar : Char := Char.ofNat 39

/-- Python `repr` of a plain string (escape sequences are outside the
model; no string in this development needs them). -/
def pyStrRepr (s : String) : String :=
  String.mk (sqChar :: s.data ++ [sqChar])

/-- Python `repr` of a string-or-`None` value. -/
def pyOptRepr : Option String → String
  | none => "None"
  | some s => pyStrRepr s

/-- Python `str`/f-string rendering of a string-or-`None` value. -/
def pyShowOptStr : Option String → String
  | none => "None"
  | some s => s

/-- Python `str`/f-string rendering of an int-or-`None` value. -/
def pyShowOptInt : Option Int → String
  | none => "None"
  | some i => pyStr i

/-- Python `repr` of a list of strings. -/
def pyListRepr (xs : List String) : String :=
  "[" ++ String.intercalate ", " (xs.map pyStrRepr) ++ "]"

/-- Python `repr` of a dict with string keys and optional string
values, in insertion order. -/
def pyDictRepr (kvs : List (String × Option String)) : String :=
  String.mk [Char.ofNat 123]
    ++ String.intercalate ", "
        (kvs.map (fun kv => pyStrRepr kv.1 ++ ": " ++ pyOptRepr kv.2))
    ++ String.mk [Char.ofNat 125]

/-- `"\t" * n` (the `indentation` lambda of `SenseElement.as_text`). -/
def tabs (n : Nat) : String :=
  String.mk (List.replicate n '\t')

/-- `dict.update` step: set key `k` to `v`, appending the key if new. -/
def dictSet (d : List (String × Option String)) (k v : String) :
    List (String × Option String) :=
  if d.any (fun kv => kv.1 == k) then
    d.map (fun kv => if kv.1 == k then (k, some v) else kv)
  else d ++ [(k, some v)]

/-- Python `dict.update(attrs)` over an attribute list. -/
def dictUpdate (d : List (String × Option String)) :
    List (String × String) → List (String × Option String)
  | [] => d
  | (k, v) :: rest => dictUpdate (dictSet d k v) rest

/-! ## `MatchValueMixin.match_value` -/

/-- `MatchValueMixin.match_value`: `temp_val` is the element's `value`
attribute, `value` the queried string (the source's parameter names). -/
def match_value (temp_val value : String) (exact : Bool) (case_sensitive : Bool) :
    Bool :=
  let v := if case_sensitive then value else pyLower value
  let t := if case_sensitive then temp_val else pyLower temp_val
  if exact then v == t else pyIn v t

/-! ## `XmlElementDecorators.verify_tag` -/

/-- `verify_tag` message for a null tag argument. -/
def nullInputMsg (expectedTag : String) : String :=
  s!"Received null input. Check the xml content/tag object for ({expectedTag}) element."

/-- `verify_tag` message for a tag-name mismatch. -/
def tagMismatchMsg (expectedTag actualTag : String) : String :=
  s!"Tag name mismatched ({expectedTag} != {actualTag})"

/-- `XmlElementDecorators.verify_tag` around an `update` body: fails
with `ValueError` on a null tag or on a tag-name mismatch, before the
body reads anything from the node. -/
def verify_tag (expectedTag : String) (item : Option Node)
    (body : Node → Except PyExc α) : Except PyExc α :=
  match item with
  | none => .error (.valueError (nullInputMsg expectedTag))
  | some tag =>
    if expectedTag ≠ tag.name then
      .error (.valueError (tagMismatchMsg expectedTag tag.name))
    else body tag

/-! ## Element classes (the object model)

Each `build` function is the Python constructor applied to a parsed
node, i.e. `__init__` followed by the decorated `update`; `buildOpt`
is the constructor applied to a possibly-`None` argument (a falsy
argument skips `update` and leaves the initializer defaults). -/

/-- `KanjiElement` (tag `k_ele`). -/
structure KanjiElement where
  value : Option String := none
  info : List String := []
  priority : List String := []
  deriving Repr, DecidableEq

/-- Body of `KanjiElement.update` (after `verify_tag`):
`self.value = item.keb.text` (an absent `keb` child makes the attribute
access on `None` fail), then collect `ke_inf` and `ke_pri` texts. -/
def KanjiElement.updateBody (item : Node) : Except PyExc KanjiElement :=
  match item.findFirst "keb" with
  | none => .error (.attributeError "NoneType object has no attribute text")
  | some keb =>
    .ok { value := some keb.text
        , info := (item.findAll "ke_inf").map (fun c => c.text)
        , priority := (item.findAll "ke_pri").map (fun c => c.text) }

def KanjiElement.build (item : Node) : Except PyExc KanjiElement :=
  verify_tag "k_ele" (some item) KanjiElement.updateBody

def KanjiElement.as_text (k : KanjiElement) : String :=
  pyShowOptStr k.value ++ " (info: " ++ pyListRepr k.info
    ++ ", priority: " ++ pyListRepr k.priority ++ ")"

/-- `ReadingElement` (tag `r_ele`). -/
structure ReadingElement where
  value : Option String := none
  no_kanji : Option String := none
  reading : List String := []
  info : List String := []
  priority : List String := []
  deriving Repr, DecidableEq

/-- Body of `ReadingElement.update` (after `verify_tag`).  Note the
source's loops iterate over `find_all(...)` but append
`item.re_restr.text` / `item.re_inf.text` / `item.re_pri.text`, i.e.
the text of the *first* matching child, once per matching child. -/
def ReadingElement.updateBody (item : Node) : Except PyExc ReadingElement :=
  match item.findFirst "reb" with
  | none => .error (.attributeError "NoneType object has no attribute text")
  | some reb =>
    .ok { value := some reb.text
        , no_kanji := (item.findFirst "re_nokanji").map (fun c => c.text)
        , reading :=
            match item.findAll "re_restr" with
            | [] => []
            | r :: rs => (r :: rs).map (fun _ => r.text)
        , info :=
            match item.findAll "re_inf" with
            | [] => []
            | r :: rs => (r :: rs).map (fun _ => r.text)
        , priority :=
            match item.findAll "re_pri" with
            | [] => []
            | r :: rs => (r :: rs).map (fun _ => r.text) }

def ReadingElement.build (item : Node) : Except PyExc ReadingElement :=
  verify_tag "r_ele" (some item) ReadingElement.updateBody

def ReadingElement.as_text (r : ReadingElement) : String :=
  pyShowOptStr r.value ++ " (no_kanji: " ++ pyShowOptStr r.no_kanji
    ++ ", reading: " ++ pyListRepr r.reading
    ++ ", info: " ++ pyListRepr r.info
    ++ ", priority: " ++ pyListRepr r.priority ++ ")"

/-- `LanguageSourceElement` (tag `lsource`). -/
structure LanguageSourceElement where
  value : Option String := none
  attrs : List (String × Option String) :=
    [("xml:lang", none), ("ls_type", none), ("ls_wasei", none)]
  deriving Repr, DecidableEq

def LanguageSourceElement.updateBody (item : Node) :
    Except PyExc LanguageSourceElement :=
  .ok { value := some item.text
      , attrs := dictUpdate
          [("xml:lang", none), ("ls_type", none), ("ls_wasei", none)]
          item.attrs }

def LanguageSourceElement.build (item : Node) :
    Except PyExc LanguageSourceElement :=
  verify_tag "lsource" (some item) LanguageSourceElement.updateBody

def LanguageSourceElement.as_text (l : LanguageSourceElement) : String :=
  pyShowOptStr l.value ++ " (attrs: " ++ pyDictRepr l.attrs ++ ")"

/-- `GlossaryElement` (tag `gloss`). -/
structure GlossaryElement where
  value : Option String := none
  attrs : List (String × Option String) :=
    [("xml:lang", none), ("g_type", none), ("g_gend", none)]
  deriving Repr, DecidableEq

def GlossaryElement.updateBody (item : Node) : Except PyExc GlossaryElement :=
  .ok { value := some item.text
      , attrs := dictUpdate
          [("xml:lang", none), ("g_type", none), ("g_gend", none)]
          item.attrs }

def GlossaryElement.build (item : Node) : Except PyExc GlossaryElement :=
  verify_tag "gloss" (some item) GlossaryElement.updateBody

def GlossaryElement.as_text (g : GlossaryElement) : String :=
  pyShowOptStr g.value ++ " (attrs: " ++ pyDictRepr g.attrs ++ ")"

/-- Build one typed object per list element, left to right, stopping
at the first raised exception (the `for child in find_all(...):
self.xs.append(Build(child))` pattern). -/
def mapME (f : α → Except PyExc β) : List α → Except PyExc (List β)
  | [] => .ok []
  | x :: xs =>
    match f x with
    | .error e => .error e
    | .ok y =>
      match mapME f xs with
      | .error e => .error e
      | .ok ys => .ok (y :: ys)

/-- `SenseElement` (tag `sense`). -/
structure SenseElement where
  kanji : List String := []
  reading : List String := []
  xref : List String := []
  antonym : List String := []
  part_of_speech : List String := []
  field : List String := []
  misc : List String := []
  info : List String := []
  dialect : List String := []
  language_src : List LanguageSourceElement := []
  glossary : List GlossaryElement := []
  deriving Repr, DecidableEq

def SenseElement.updateBody (item : Node) : Except PyExc SenseElement := do
  let ls ← mapME LanguageSourceElement.build (item.findAll "lsource")
  let gl ← mapME GlossaryElement.build (item.findAll "gloss")
  return { kanji := (item.findAll "stagk").map (fun c => c.text)
         , reading := (item.findAll "stagr").map (fun c => c.text)
         , xref := (item.findAll "xref").map (fun c => c.text)
         , antonym := (item.findAll "ant").map (fun c => c.text)
         , part_of_speech := (item.findAll "pos").map (fun c => c.text)
         , field := (item.findAll "field").map (fun c => c.text)
         , misc := (item.findAll "misc").map (fun c => c.text)
         , info := (item.findAll "s_inf").map (fun c => c.text)
         , dialect := (item.findAll "dial").map (fun c => c.text)
         , language_src := ls
         , glossary := gl }

def SenseElement.build (item : Node) : Except PyExc SenseElement :=
  verify_tag "sense" (some item) SenseElement.updateBody

/-- One `.sub_el:` block of `SenseElement.as_text`: the attribute name
line, then one `- value` line per collected value. -/
def senseBlock (indent_level : Nat) (label : String) (vals : List String) :
    String :=
  tabs indent_level ++ "." ++ label ++ ":\n"
    ++ String.join (vals.map (fun v => tabs (indent_level + 1) ++ "- " ++ v ++ "\n"))

/-- `SenseElement.as_text` called with `SenseElement.SUB_ELEMENTS` (the
only way the source calls it): every listed attribute exists, so the
`hasattr` guard always passes and the blocks appear in list order. -/
def SenseElement.as_text (s : SenseElement) (indent_level : Nat) : String :=
  senseBlock indent_level "kanji" s.kanji
    ++ senseBlock indent_level "reading" s.reading
    ++ senseBlock indent_level "xref" s.xref
    ++ senseBlock indent_level "antonym" s.antonym
    ++ senseBlock indent_level "part_of_speech" s.part_of_speech
    ++ senseBlock indent_level "field" s.field
    ++ senseBlock indent_level "misc" s.misc
    ++ senseBlock indent_level "info" s.info
    ++ senseBlock indent_level "dialect" s.dialect
    ++ senseBlock indent_level "language_src"
        (s.language_src.map LanguageSourceElement.as_text)
    ++ senseBlock indent_level "glossary"
        (s.glossary.map GlossaryElement.as_text)

/-- `EntryElement` (tag `entry`). -/
structure EntryElement where
  sequence : Option Int := none
  kanji : List KanjiElement := []
  reading : List ReadingElement := []
  sense : List SenseElement := []
  deriving Repr, DecidableEq

/-- Body of `EntryElement.update` (after `verify_tag`): parse the
`ent_seq` text with `int(...)` when that child exists, then build the
`k_ele` / `r_ele` / `sense` children in document order. -/
def EntryElement.updateBody (item : Node) : Except PyExc EntryElement := do
  let sequence ←
    match item.findFirst "ent_seq" with
    | none => pure (none : Option Int)
    | some t =>
      match pyInt? t.text with
      | none => .error (.valueError s!"invalid literal for int() with base 10")
      | some i => pure (some i)
  let kanji ← mapME KanjiElement.build (item.findAll "k_ele")
  let reading ← mapME ReadingElement.build (item.findAll "r_ele")
  let sense ← mapME SenseElement.build (item.findAll "sense")
  return { sequence := sequence, kanji := kanji, reading := reading, sense := sense }

def EntryElement.build (item : Node) : Except PyExc EntryElement :=
  verify_tag "entry" (some item) EntryElement.updateBody

/-- `EntryElement(item)` where `item` may be `None` (as produced by
`find_parent`): a `None` argument skips `update` entirely. -/
def EntryElement.buildOpt : Option Node → Except PyExc EntryElement
  | none => .ok {}
  | some item => EntryElement.build item

/-- The numbered sense blocks of `EntryElement.as_text` (`i+1` starting
from 1, each sense rendered at indent level 2). -/
def senseSections (i : Nat) : List SenseElement → String
  | [] => ""
  | s :: rest =>
    "\t--- " ++ pyStrNat i ++ " ---\n" ++ s.as_text 2 ++ senseSections (i + 1) rest

def EntryElement.as_text (e : EntryElement) : String :=
  "Entry (" ++ pyShowOptInt e.sequence ++ "):\n"
    ++ "\t> Kanji(s):\n"
    ++ String.join (e.kanji.map (fun k => "\t\t- " ++ k.as_text ++ "\n"))
    ++ "\n"
    ++ "\t> Reading(s):\n"
    ++ String.join (e.reading.map (fun r => "\t\t- " ++ r.as_text ++ "\n"))
    ++ "\n"
    ++ "\t> Sense(s):\n"
    ++ senseSections 1 e.sense

/-! ## Matching (query layer on elements) -/

/-- A Python value returned by `EntryElement.match`: either a `bool`
or the `ValueError` *object* the source returns (not raises) when all
criteria are missing. -/
inductive PyRet where
  | excObj (e : PyExc)
  | bool (b : Bool)
  deriving Repr, DecidableEq

/-- Truthiness of a `PyRet` (an exception object is truthy). -/
def PyRet.isTruthy : PyRet → Bool
  | .excObj _ => true
  | .bool b => b

/-- Truthiness of a Python string-or-`None` (`None` and `""` falsy). -/
def truthyOptStr : Option String → Bool
  | none => false
  | some s => !s.data.isEmpty

/-- `match_value` invoked on an element whose `value` attribute may be
`None`: with `case_sensitive=False` Python calls `None.lower()`
(`AttributeError`); case-sensitive exact comparison against `None` is
`False`; case-sensitive containment `value in None` is a `TypeError`. -/
def matchValueOpt (selfValue : Option String) (value : String)
    (exact case_sensitive : Bool) : Except PyExc Bool :=
  match selfValue with
  | some v => .ok (match_value v value exact case_sensitive)
  | none =>
    if !case_sensitive then
      .error (.attributeError "NoneType object has no attribute lower")
    else if exact then .ok false
    else .error (.typeError "argument of type NoneType is not iterable")

/-- Short-circuiting `for ... : if f x: return True ... return False`. -/
def anyME (f : α → Except PyExc Bool) : List α → Except PyExc Bool
  | [] => .ok false
  | x :: xs =>
    match f x with
    | .error ex => .error ex
    | .ok true => .ok true
    | .ok false => anyME f xs

/-- `EntryElement.match_kanji`. -/
def EntryElement.match_kanji (e : EntryElement) (value : String)
    (exact case_sensitive : Bool) : Except PyExc Bool :=
  anyME (fun k => matchValueOpt k.value value exact case_sensitive) e.kanji

/-- `EntryElement.match_reading`. -/
def EntryElement.match_reading (e : EntryElement) (value : String)
    (exact case_sensitive : Bool) : Except PyExc Bool :=
  anyME (fun r => matchValueOpt r.value value exact case_sensitive) e.reading

/-- `SenseElement.match_glossary`. -/
def SenseElement.match_glossary (s : SenseElement) (value : String)
    (exact case_sensitive : Bool) : Except PyExc Bool :=
  anyME (fun g => matchValueOpt g.value value exact case_sensitive) s.glossary

/-- `EntryElement.match_glossary`. -/
def EntryElement.match_glossary (e : EntryElement) (value : String)
    (exact case_sensitive : Bool) : Except PyExc Bool :=
  anyME (fun s => s.match_glossary value exact case_sensitive) e.sense

/-- One `if crit: if self.match_xxx(crit, exact=False,
case_sensitive=False): return True` step of `EntryElement.match`. -/
def critStep : Option String → (String → Except PyExc Bool) →
    Except PyExc PyRet → Except PyExc PyRet
  | none, _, next => next
  | some s, f, next =>
    if s.data.isEmpty then next
    else
      match f s with
      | .error ex => .error ex
      | .ok true => .ok (.bool true)
      | .ok false => next

/-- `EntryElement.match` (named `matchQuery` here because `match` is a
Lean keyword): *returns* a `ValueError` object when no criterion is
given, otherwise tries kanji, reading and glossary in order. -/
def EntryElement.matchQuery (e : EntryElement)
    (kanji reading glossary : Option String) : Except PyExc PyRet :=
  if !(truthyOptStr kanji || truthyOptStr reading || truthyOptStr glossary) then
    .ok (.excObj (.valueError "Query input required."))
  else
    critStep kanji (fun s => e.match_kanji s false false)
      (critStep reading (fun s => e.match_reading s false false)
        (critStep glossary (fun s => e.match_glossary s false false)
          (.ok (.bool false))))

/-! ## `JMDict` container -/

/-- A Python value as returned by `JMDict.filter`: a `JMDict` instance
or the returned `ValueError` object. -/
inductive PyValue where
  | excObj (e : PyExc)
  | dict (entries : List EntryElement)
  deriving Repr, DecidableEq

/-- Outcome of a call that can either raise or return. -/
inductive FilterOutcome where
  | raised (e : PyExc)
  | returned (v : PyValue)
  deriving Repr, DecidableEq

/-- `JMDict`: the entries container. -/
structure JMDict where
  entries : List EntryElement
  deriving Repr, DecidableEq

def JMDict.count (d : JMDict) : Nat := d.entries.length

/-- The `while i < len(self.entries) and len(results) <= limit` loop of
`JMDict.filter`: `results` accumulates matches (kept reversed here,
restored on return). -/
def filterLoop (kanji reading glossary : Option String) (limit : Nat)
    (results : List EntryElement) : List EntryElement → FilterOutcome
  | [] => .returned (.dict results.reverse)
  | e :: rest =>
    if results.length ≤ limit then
      match e.matchQuery kanji reading glossary with
      | .error ex => .raised ex
      | .ok ret =>
        if ret.isTruthy then filterLoop kanji reading glossary limit (e :: results) rest
        else filterLoop kanji reading glossary limit results rest
    else .returned (.dict results.reverse)

set_option linter.unusedVariables false

/-- `JMDict.filter(sequence, kanji, reading, glossary, limit)`.  The
`sequence` parameter is accepted and never used.  When no criterion is
truthy the source *returns* (does not raise) a `ValueError` object.  A
`None` or negative `limit` is replaced by `len(self.entries)`. -/
def JMDict.filter (d : JMDict) (sequence : Option Int)
    (kanji reading glossary : Option String) (limit : Option Int) :
    FilterOutcome :=
  if !(truthyOptStr kanji || truthyOptStr reading || truthyOptStr glossary) then
    .returned (.excObj (.valueError "Query input required."))
  else
    let lim : Nat :=
      match limit with
      | none => d.entries.length
      | some l => if l < 0 then d.entries.length else l.toNat
    filterLoop kanji reading glossary lim [] d.entries

set_option linter.unusedVariables true

/-- Clamp one Python slice bound to `0 .. n` (negative indices count
from the end). -/
def sliceBound (n : Nat) (i : Int) : Nat :=
  if i < 0 then (Int.ofNat n + i).toNat else min i.toNat n

/-- Python `xs[s:e]`. -/
def pySlice (xs : List α) (s e : Int) : List α :=
  (xs.take (sliceBound xs.length e)).drop (sliceBound xs.length s)

/-- Python `xs[s:]`. -/
def pySliceFrom (xs : List α) (s : Int) : List α :=
  xs.drop (sliceBound xs.length s)

/-- Python `xs[:e]`. -/
def pySliceTo (xs : List α) (e : Int) : List α :=
  xs.take (sliceBound xs.length e)

/-- Truthiness of a Python int-or-`None` (`None` and `0` falsy). -/
def truthyOptInt : Option Int → Bool
  | none => false
  | some i => i != 0

/-- `JMDict.as_text(start, end, buffer)`.  The guard raises
`IndexError` when `start >= len(entries)` or `end > len(entries)`; the
branch selection then tests *truthiness* of `start`/`end`, so a `0`
bound behaves like an absent one.  The optional `buffer` is the text
already in the `StringIO` passed in (`""` for the default). -/
def JMDict.as_text (d : JMDict) (start endIdx : Option Int)
    (buffer : String := "") : Except PyExc String :=
  if (start.any (fun s => s ≥ (d.entries.length : Int)))
      || (endIdx.any (fun e => e > (d.entries.length : Int))) then
    .error (.indexError "Index out of range.")
  else
    let chosen : List EntryElement :=
      match start, endIdx with
      | some s, some e => pySlice d.entries s e
      | _, _ =>
        if truthyOptInt start && endIdx.isNone then
          pySliceFrom d.entries (start.getD 0)
        else if start.isNone && truthyOptInt endIdx then
          pySliceTo d.entries (endIdx.getD 0)
        else d.entries
    .ok (buffer ++ String.join (chosen.map EntryElement.as_text))

/-! ## Loading (`JMDict.from_xml` after parsing) and the engine -/

/-- `JMDict._read_xml_soup`: raises `ValueError` on a `None` argument,
otherwise builds an `EntryElement` per `entry` descendant. -/
def JMDict._read_xml_soup : Option Node → Except PyExc (List EntryElement)
  | none => .error (.valueError "Received None value as input.")
  | some item => mapME EntryElement.build (item.findAll "entry")

/-- `JMDict.from_xml` after the file has been read and parsed:
`content.jmdict` is the first descendant tagged `jmdict` (or `None`),
handed to `_read_xml_soup`.  File I/O and markup parsing are the
external collaborator and are outside the model. -/
def JMDict.from_xml (content : Node) : Except PyExc JMDict := do
  let entries ← JMDict._read_xml_soup (content.findFirst "jmdict")
  return ⟨entries⟩

/-- `JMDictEngine.search_sequence(value)`: find every `ent_seq` node
whose string matches `re.compile(str(value))` — for the metacharacter-
free pattern `str(value)` a regex search is exactly a substring test —
and build an `EntryElement` from its nearest `entry` ancestor. -/
def search_sequence (soup : Node) (value : Int) :
    Except PyExc (List EntryElement) :=
  let pattern := pyStr value
  let hits := (descAnc [] soup.children).filter
    (fun na => na.1.name == "ent_seq" && pyIn pattern na.1.ownText)
  mapME (fun na => EntryElement.buildOpt (findParent na.2 "entry")) hits

/-! ## Result classifiers and concrete sample inputs -/

/-- Whether a call raised (any exception). -/
def isErrorE {α : Type} : Except PyExc α → Bool
  | .error _ => true
  | .ok _ => false

/-- Whether a call raised a `TagMismatchError` (the class named by the
design document). -/
def isTagMismatchRaise {α : Type} : Except PyExc α → Bool
  | .error (.tagMismatchError _) => true
  | _ => false

/-- Whether a call raised a `NotFoundError` (the class named by the
design document). -/
def isNotFoundRaise {α : Type} : Except PyExc α → Bool
  | .error (.notFoundError _) => true
  | _ => false

/-- Whether a `filter` call raised (rather than returned). -/
def raisedOutcome : FilterOutcome → Bool
  | .raised _ => true
  | .returned _ => false

/-- A leaf markup node. -/
def leafNode (tag tx : String) : Node := ⟨tag, tx, [], []⟩

/-- An `ent_seq` node holding the decimal form of `s`. -/
def entSeqNode (s : Int) : Node := ⟨"ent_seq", pyStr s, [], []⟩

/-- A `k_ele` node with one `keb` child. -/
def kanjiEleNode (t : String) : Node := ⟨"k_ele", "", [], [⟨"keb", t, [], []⟩]⟩

/-- An `entry` node with an `ent_seq` child and one kanji form. -/
def entryNodeOf (s : Int) (t : String) : Node :=
  ⟨"entry", "", [], [entSeqNode s, kanjiEleNode t]⟩

/-- A parsed document whose top level is a list of entry nodes. -/
def soupOf (items : List (Int × String)) : Node :=
  ⟨"[document]", "", [], items.map (fun it => entryNodeOf it.1 it.2)⟩

/-- The `EntryElement` that building `entryNodeOf s t` produces. -/
def builtEntry (s : Int) (t : String) : EntryElement :=
  { sequence := some s
  , kanji := [{ value := some t, info := [], priority := [] }]
  , reading := []
  , sense := [] }

/-- Two-entry sample dictionary. -/
def sampleE1 : EntryElement := builtEntry 1 "ab"
def sampleE2 : EntryElement := builtEntry 2 "cd"
def sampleDict : JMDict := ⟨[sampleE1, sampleE2]⟩

/-- One-entry sample dictionary. -/
def sampleDict1 : JMDict := ⟨[sampleE1]⟩

/-- Three-entry sample dictionary (entries 1 and 3 contain `"a"`). -/
def sampleE3 : EntryElement := builtEntry 3 "ax"
def sampleDict3 : JMDict := ⟨[sampleE1, sampleE2, sampleE3]⟩

/-- An `r_ele` node with two distinct `re_restr`, `re_inf` and `re_pri`
children each. -/
def rEleRepeatNode : Node :=
  ⟨"r_ele", "", [],
    [leafNode "reb" "a", leafNode "re_restr" "x", leafNode "re_restr" "y",
     leafNode "re_inf" "i1", leafNode "re_inf" "i2",
     leafNode "re_pri" "p1", leafNode "re_pri" "p2"]⟩

/-- A node whose tag matches no builder and which has no children. -/
def wrongTagNode : Node := ⟨"bogus", "", [], []⟩

/-- A parsed document with no `jmdict` tag anywhere. -/
def noRootDoc : Node := ⟨"[document]", "", [], [⟨"foo", "", [], []⟩]⟩

/-! ## Claims -/

/-- Claim C1 (code_bug evidence): with kanji, reading and glossary all
omitted, `JMDict.filter` returns normally — its return value is the
`ValueError` object itself — instead of raising the `ValueError` to the
caller, regardless of the `sequence` and `limit` arguments and of the
dictionary contents. -/
theorem C1_filter_returns_valueError (d : JMDict) (seq limit : Option Int) :
    d.filter seq none none none limit
        = .returned (.excObj (.valueError "Query input required."))
      ∧ raisedOutcome (d.filter seq none none none limit) = false :=
  ⟨rfl, rfl⟩

/-- Claim C2 (code_bug evidence): building a reading form from a node
with `re_restr` children `x, y`, `re_inf` children `i1, i2` and
`re_pri` children `p1, p2` yields the first child's text repeated —
`["x", "x"]`, `["i1", "i1"]`, `["p1", "p1"]` — not the children's
texts in document order (the loops append `item.re_restr.text` etc.,
the first match, instead of the loop variable's text). -/
theorem C2_reading_lists_repeat_first_child :
    ReadingElement.build rEleRepeatNode
        = .ok { value := some "a", no_kanji := none
              , reading := ["x", "x"], info := ["i1", "i1"]
              , priority := ["p1", "p1"] }
      ∧ ReadingElement.build rEleRepeatNode
        ≠ .ok { value := some "a", no_kanji := none
              , reading := ["x", "y"], info := ["i1", "i2"]
              , priority := ["p1", "p2"] } := by
  constructor
  · decide
  · decide

/-- Claim C6 counterexample: invoking a builder on a mismatched node
fails with the plain `ValueError` class — the same class the filter
criteria check uses — not with a distinct `TagMismatchError` (no such
class exists in the source). -/
theorem C6_counterexample_valueError_not_tagMismatch :
    KanjiElement.build wrongTagNode
        = .error (.valueError (tagMismatchMsg "k_ele" "bogus"))
      ∧ isTagMismatchRaise (KanjiElement.build wrongTagNode) = false := by
  constructor
  · decide
  · decide

/-- Claim C6 (amended): for each of the six builders, invoking it on a
node whose tag differs from the builder's expected tag fails with
`ValueError` (message `Tag name mismatched (expected != actual)`),
before any field of the node is accessed — the statement holds for
arbitrary nodes, including nodes lacking every required child. -/
theorem C6_mismatched_tag_fails (node : Node) :
    (node.name ≠ "entry" →
      EntryElement.build node
        = .error (.valueError (tagMismatchMsg "entry" node.name)))
    ∧ (node.name ≠ "k_ele" →
      KanjiElement.build node
        = .error (.valueError (tagMismatchMsg "k_ele" node.name)))
    ∧ (node.name ≠ "r_ele" →
      ReadingElement.build node
        = .error (.valueError (tagMismatchMsg "r_ele" node.name)))
    ∧ (node.name ≠ "sense" →
      SenseElement.build node
        = .error (.valueError (tagMismatchMsg "sense" node.name)))
    ∧ (node.name ≠ "lsource" →
      LanguageSourceElement.build node
        = .error (.valueError (tagMismatchMsg "lsource" node.name)))
    ∧ (node.name ≠ "gloss" →
      GlossaryElement.build node
        = .error (.valueError (tagMismatchMsg "gloss" node.name))) := by
  refine ⟨fun h => ?_, fun h => ?_, fun h => ?_, fun h => ?_, fun h => ?_, fun h => ?_⟩
  all_goals
    first
    | (rw [EntryElement.build, verify_tag, if_pos (fun hh => h hh.symm)])
    | (rw [KanjiElement.build, verify_tag, if_pos (fun hh => h hh.symm)])
    | (rw [ReadingElement.build, verify_tag, if_pos (fun hh => h hh.symm)])
    | (rw [SenseElement.build, verify_tag, if_pos (fun hh => h hh.symm)])
    | (rw [LanguageSourceElement.build, verify_tag, if_pos (fun hh => h hh.symm)])
    | (rw [GlossaryElement.build, verify_tag, if_pos (fun hh => h hh.symm)])

/-- Claim C6 witness: all six builders rejecting one concrete
mismatched node. -/
theorem C6_mismatched_tag_fails_witness :
    EntryElement.build (leafNode "nav" "")
        = .error (.valueError (tagMismatchMsg "entry" "nav"))
      ∧ KanjiElement.build (leafNode "nav" "")
        = .error (.valueError (tagMismatchMsg "k_ele" "nav"))
      ∧ ReadingElement.build (leafNode "nav" "")
        = .error (.valueError (tagMismatchMsg "r_ele" "nav"))
      ∧ SenseElement.build (leafNode "nav" "")
        = .error (.valueError (tagMismatchMsg "sense" "nav"))
      ∧ LanguageSourceElement.build (leafNode "nav" "")
        = .error (.valueError (tagMismatchMsg "lsource" "nav"))
      ∧ GlossaryElement.build (leafNode "nav" "")
        = .error (.valueError (tagMismatchMsg "gloss" "nav")) := by
  have h := C6_mismatched_tag_fails (leafNode "nav" "")
  exact ⟨h.1 (by decide), h.2.1 (by decide), h.2.2.1 (by decide),
    h.2.2.2.1 (by decide), h.2.2.2.2.1 (by decide), h.2.2.2.2.2 (by decide)⟩

/-- Claim C7 counterexample: loading a parsed document with no
`jmdict` root fails with `ValueError` (`Received None value as
input.`), not with a `NotFoundError` (no such class exists in the
source). -/
theorem C7_counterexample_valueError_not_notFound :
    JMDict.from_xml noRootDoc
        = .error (.valueError "Received None value as input.")
      ∧ isNotFoundRaise (JMDict.from_xml noRootDoc) = false := by
  constructor
  · decide
  · decide

/-- Claim C7 (amended): for every parsed document in which no `jmdict`
tag occurs, `JMDict.from_xml` fails with `ValueError` carrying the
message `Received None value as input.`. -/
theorem C7_missing_root_fails (content : Node)
    (h : content.findFirst "jmdict" = none) :
    JMDict.from_xml content
      = .error (.valueError "Received None value as input.") := by
  simp [JMDict.from_xml, h, JMDict._read_xml_soup]

/-- Claim C7 witness: the amended statement at a concrete document. -/
theorem C7_missing_root_fails_witness :
    JMDict.from_xml noRootDoc
      = .error (.valueError "Received None value as input.") :=
  C7_missing_root_fails noRootDoc rfl

/-- Claim C9: the `sequence` argument of `JMDict.filter` has no effect
on the result — two calls differing only in `sequence` return equal
results, for every dictionary and every combination of the other
arguments. -/
theorem C9_sequence_argument_ignored (d : JMDict) (s1 s2 : Option Int)
    (kanji reading glossary : Option String) (limit : Option Int) :
    d.filter s1 kanji reading glossary limit
      = d.filter s2 kanji reading glossary limit :=
  rfl

/-! ## Substring characterization (for claim C5) -/

theorem beginsWithChars_iff (n : List Char) : ∀ h : List Char,
    beginsWithChars n h = true ↔ ∃ t, h = n ++ t := by
  induction n with
  | nil =>
    intro h
    simp [beginsWithChars]
  | cons a as ih =>
    intro h
    cases h with
    | nil =>
      simp [beginsWithChars]
    | cons b bs =>
      rw [beginsWithChars]
      simp only [Bool.and_eq_true, beq_iff_eq, ih bs]
      constructor
      · rintro ⟨hab, t, ht⟩
        exact ⟨t, by rw [hab, ht]; rfl⟩
      · rintro ⟨t, ht⟩
        rw [List.cons_append] at ht
        obtain ⟨h1, h2⟩ := List.cons.inj ht
        exact ⟨h1.symm, t, h2⟩

theorem containsChars_iff (n : List Char) : ∀ h : List Char,
    containsChars n h = true ↔ ∃ p s, h = p ++ n ++ s := by
  intro h
  induction h with
  | nil =>
    rw [containsChars]
    simp only [List.isEmpty_iff]
    constructor
    · intro hn
      exact ⟨[], [], by rw [hn]; rfl⟩
    · rintro ⟨p, s, hps⟩
      rcases List.append_eq_nil.mp (List.append_eq_nil.mp hps.symm).1 with ⟨_, h2⟩
      exact h2
  | cons c rest ih =>
    rw [containsChars]
    simp only [Bool.or_eq_true, beginsWithChars_iff, ih]
    constructor
    · rintro (⟨t, ht⟩ | ⟨p, s, hps⟩)
      · exact ⟨[], t, by rw [ht]; rfl⟩
      · exact ⟨c :: p, s, by rw [hps]; rfl⟩
    · rintro ⟨p, s, hps⟩
      cases p with
      | nil =>
        exact Or.inl ⟨s, by simpa using hps⟩
      | cons q qs =>
        rw [List.cons_append, List.cons_append] at hps
        obtain ⟨_, h2⟩ := List.cons.inj hps
        exact Or.inr ⟨qs, s, h2⟩

/-- Claim C5: `match_value` is exact string equality when `exact` is
true and substring containment of the query in the element's text when
`exact` is false, with both operands case-folded symmetrically first
when `case_sensitive` is false; in particular querying `"Tokyo"`
against the value `"tokyo station"` case-insensitively succeeds as a
substring match and fails as an exact match. -/
theorem C5_match_value_semantics :
    (∀ v q : String, match_value v q true true = true ↔ q = v)
    ∧ (∀ v q : String,
        match_value v q false true = true ↔ ∃ p s, v.data = p ++ q.data ++ s)
    ∧ (∀ v q : String,
        match_value v q true false = true ↔ pyLower q = pyLower v)
    ∧ (∀ v q : String,
        match_value v q false false = true
          ↔ ∃ p s, (pyLower v).data = p ++ (pyLower q).data ++ s)
    ∧ match_value "tokyo station" "Tokyo" false false = true
    ∧ match_value "tokyo station" "Tokyo" true false = false := by
  refine ⟨fun v q => ?_, fun v q => ?_, fun v q => ?_, fun v q => ?_, ?_, ?_⟩
  · rw [match_value]
    simp
  · rw [match_value]
    simp only [if_false, Bool.if_true_left]
    exact containsChars_iff q.data v.data
  · rw [match_value]
    simp
  · rw [match_value]
    exact containsChars_iff (pyLower q).data (pyLower v).data
  · decide
  · decide

/-! ## Rendering-range claims (C8, C10) -/

theorem strLen_foldl_le (xs : List String) : ∀ s : String,
    s.length ≤ (xs.foldl (fun r t => r ++ t) s).length := by
  induction xs with
  | nil => intro s; exact Nat.le_refl _
  | cons x rest ih =>
    intro s
    calc s.length ≤ (s ++ x).length := by
          rw [String.length_append]; omega
      _ ≤ _ := ih (s ++ x)

theorem entry_as_text_length (e : EntryElement) :
    1 ≤ (EntryElement.as_text e).length := by
  rw [EntryElement.as_text]
  simp only [String.length_append]
  have h7 : ("Entry (" : String).length = 7 := rfl
  omega

theorem join_entry_texts_ne_empty (es : List EntryElement) (h : es ≠ []) :
    String.join (es.map EntryElement.as_text) ≠ "" := by
  cases es with
  | nil => exact absurd rfl h
  | cons e rest =>
    intro hempty
    have h1 : String.join ((e :: rest).map EntryElement.as_text)
        = (rest.map EntryElement.as_text).foldl (fun r t => r ++ t)
            ("" ++ EntryElement.as_text e) := rfl
    have h2 := strLen_foldl_le (rest.map EntryElement.as_text)
      ("" ++ EntryElement.as_text e)
    rw [h1] at hempty
    rw [hempty, String.empty_append] at h2
    have h3 := entry_as_text_length e
    rw [String.length_empty] at h2
    omega

theorem sliceBound_of_nonneg_le (n : Nat) (i : Int) (h0 : 0 ≤ i)
    (hn : i ≤ (n : Int)) : sliceBound n i = i.toNat := by
  rw [sliceBound, if_neg (by omega)]
  omega

/-- Claim C8: with both bounds given and inside the entry count,
`as_text` returns the concatenated renderings of exactly the entries
with indices in `[start, end)`; it raises `IndexError` whenever
`start ≥ count` or `end > count`. -/
theorem C8_as_text_range (d : JMDict) (s e : Int) :
    (0 ≤ s → s < (d.entries.length : Int) → 0 ≤ e → e ≤ (d.entries.length : Int) →
      d.as_text (some s) (some e)
        = .ok (String.join (((d.entries.take e.toNat).drop s.toNat).map
            EntryElement.as_text)))
    ∧ ((d.entries.length : Int) ≤ s ∨ (d.entries.length : Int) < e →
      d.as_text (some s) (some e) = .error (.indexError "Index out of range.")) := by
  constructor
  · intro h0s hsn h0e hen
    have hcond : (((some s).any fun x => decide (x ≥ (d.entries.length : Int)))
        || ((some e).any fun x => decide (x > (d.entries.length : Int)))) = false := by
      simp only [Option.any_some, Bool.or_eq_false_iff, decide_eq_false_iff_not,
        not_le, not_lt]
      omega
    rw [JMDict.as_text, hcond]
    show Except.ok ("" ++ String.join ((pySlice d.entries s e).map EntryElement.as_text)) = _
    rw [pySlice, sliceBound_of_nonneg_le _ e h0e hen,
      sliceBound_of_nonneg_le _ s h0s (le_of_lt hsn), String.empty_append]
  · intro hout
    have hcond : (((some s).any fun x => decide (x ≥ (d.entries.length : Int)))
        || ((some e).any fun x => decide (x > (d.entries.length : Int)))) = true := by
      simp only [Option.any_some, Bool.or_eq_true, decide_eq_true_eq]
      omega
    rw [JMDict.as_text, hcond]
    exact rfl

/-- Claim C8 witness: on the two-entry sample dictionary,
`as_text(0, 1)` renders exactly the first entry and `as_text(5, 6)`
raises `IndexError`. -/
theorem C8_as_text_range_witness :
    sampleDict.as_text (some 0) (some 1) = .ok (EntryElement.as_text sampleE1)
    ∧ sampleDict.as_text (some 5) (some 6)
        = .error (.indexError "Index out of range.") := by
  constructor
  · have h := (C8_as_text_range sampleDict 0 1).1 (by decide) (by decide)
      (by decide) (by decide)
    rw [h]
    decide
  · exact (C8_as_text_range sampleDict 5 6).2 (Or.inl (by decide))

/-- Claim C10: on a non-empty dictionary, `as_text` with `start`
omitted and `end = 0` does not raise and does not render the empty
range — `end = 0` is falsy, so the branch selection treats it like an
absent bound and all entries are rendered. -/
theorem C10_end_zero_renders_all (d : JMDict) (h : d.entries ≠ []) :
    d.as_text none (some 0)
        = .ok (String.join (d.entries.map EntryElement.as_text))
    ∧ d.as_text none (some 0) ≠ .ok ""
    ∧ isErrorE (d.as_text none (some 0)) = false := by
  have hcond : (((none : Option Int).any fun x => decide (x ≥ (d.entries.length : Int)))
      || ((some (0 : Int)).any fun x => decide (x > (d.entries.length : Int)))) = false := by
    simp only [Option.any_none, Option.any_some, Bool.false_or,
      decide_eq_false_iff_not, not_lt]
    omega
  have hmain : d.as_text none (some 0)
      = .ok (String.join (d.entries.map EntryElement.as_text)) := by
    rw [JMDict.as_text, hcond]
    · exact rfl
    · intro a b hab
      exact absurd hab (by simp)
  refine ⟨hmain, ?_, ?_⟩
  · rw [hmain]
    intro heq
    exact join_entry_texts_ne_empty d.entries h (Except.ok.inj heq)
  · rw [hmain]
    rfl

/-- Claim C10 witness: the behaviour on a concrete one-entry
dictionary. -/
theorem C10_end_zero_renders_all_witness :
    sampleDict1.entries ≠ []
    ∧ sampleDict1.as_text none (some 0)
        = .ok (String.join (sampleDict1.entries.map EntryElement.as_text))
    ∧ sampleDict1.as_text none (some 0) ≠ .ok ""
    ∧ isErrorE (sampleDict1.as_text none (some 0)) = false := by
  have hne : sampleDict1.entries ≠ [] := by decide
  have h := C10_end_zero_renders_all sampleDict1 hne
  exact ⟨hne, h.1, h.2.1, h.2.2⟩

/-! ## Filter-limit claim (C4) -/

/-- Well-formedness of an entry as the builders produce it from
markup: every collected kanji form, reading form and gloss carries its
(required) text value. -/
def EntryElement.wf (e : EntryElement) : Bool :=
  e.kanji.all (fun k => k.value.isSome)
    && e.reading.all (fun r => r.value.isSome)
    && e.sense.all (fun s => s.glossary.all (fun g => g.value.isSome))

/-- Specification-level: some kanji form of the entry matches the
query (case-insensitive substring). -/
def kanjiHit (e : EntryElement) (q : String) : Bool :=
  e.kanji.any (fun k => match_value (k.value.getD "") q false false)

/-- Specification-level: some reading form of the entry matches. -/
def readingHit (e : EntryElement) (q : String) : Bool :=
  e.reading.any (fun r => match_value (r.value.getD "") q false false)

/-- Specification-level: some gloss of some sense matches. -/
def glossaryHit (e : EntryElement) (q : String) : Bool :=
  e.sense.any (fun s =>
    s.glossary.any (fun g => match_value (g.value.getD "") q false false))

/-- Specification-level: a provided, truthy criterion whose hit
predicate fires. -/
def critBool : Option String → (String → Bool) → Bool
  | none, _ => false
  | some s, hit => !s.data.isEmpty && hit s

/-- Specification-level inclusion predicate of `filter`: ANY provided
criterion matching ANY of the respective values. -/
def entryMatches (e : EntryElement) (kanji reading glossary : Option String) :
    Bool :=
  critBool kanji (kanjiHit e) || critBool reading (readingHit e)
    || critBool glossary (glossaryHit e)

theorem anyME_ok {β : Type} (f : β → Except PyExc Bool) (g : β → Bool) :
    ∀ l : List β, (∀ x ∈ l, f x = .ok (g x)) → anyME f l = .ok (l.any g) := by
  intro l
  induction l with
  | nil => intro _; rfl
  | cons x xs ih =>
    intro h
    rw [anyME, h x (List.mem_cons_self x xs), List.any_cons]
    cases hgx : g x
    · rw [ih (fun y hy => h y (List.mem_cons_of_mem _ hy))]
      simp
    · simp

theorem match_kanji_ok (e : EntryElement)
    (hwf : ∀ k ∈ e.kanji, k.value.isSome = true) (s : String) :
    e.match_kanji s false false = .ok (kanjiHit e s) := by
  apply anyME_ok
  intro x hx
  obtain ⟨v, hv⟩ := Option.isSome_iff_exists.mp (hwf x hx)
  rw [hv]
  rfl

theorem match_reading_ok (e : EntryElement)
    (hwf : ∀ r ∈ e.reading, r.value.isSome = true) (s : String) :
    e.match_reading s false false = .ok (readingHit e s) := by
  apply anyME_ok
  intro x hx
  obtain ⟨v, hv⟩ := Option.isSome_iff_exists.mp (hwf x hx)
  rw [hv]
  rfl

theorem match_glossary_ok (e : EntryElement)
    (hwf : ∀ sn ∈ e.sense, ∀ g ∈ sn.glossary, g.value.isSome = true)
    (s : String) :
    e.match_glossary s false false
      = .ok (e.sense.any (fun sn =>
          sn.glossary.any (fun g => match_value (g.value.getD "") s false false))) := by
  apply anyME_ok
  intro sn hsn
  apply anyME_ok
  intro g hg
  obtain ⟨v, hv⟩ := Option.isSome_iff_exists.mp (hwf sn hsn g hg)
  rw [hv]
  rfl

theorem critStep_ok (q : Option String) (f : String → Except PyExc Bool)
    (g : String → Bool) (hf : ∀ s, f s = .ok (g s))
    (next : Except PyExc PyRet) (b : Bool) (hnext : next = .ok (.bool b)) :
    critStep q f next = .ok (.bool (critBool q g || b)) := by
  cases q with
  | none =>
    rw [critStep, hnext, critBool]
    simp
  | some s =>
    rw [critStep, critBool]
    by_cases hse : s.data.isEmpty
    · rw [if_pos hse, hnext, hse]
      simp
    · rw [if_neg hse, hf s]
      have hse' : s.data.isEmpty = false := by
        revert hse
        cases s.data.isEmpty <;> simp
      rw [hse']
      cases hgs : g s
      · rw [hnext]
        simp
      · simp

theorem matchQuery_of_wf (e : EntryElement) (hwf : e.wf = true)
    (kanji reading glossary : Option String)
    (hcrit : (truthyOptStr kanji || truthyOptStr reading
      || truthyOptStr glossary) = true) :
    e.matchQuery kanji reading glossary
      = .ok (.bool (entryMatches e kanji reading glossary)) := by
  rw [EntryElement.wf] at hwf
  simp only [Bool.and_eq_true, List.all_eq_true] at hwf
  obtain ⟨⟨hk, hr⟩, hg⟩ := hwf
  rw [EntryElement.matchQuery, hcrit,
    critStep_ok glossary _ (glossaryHit e)
      (match_glossary_ok e (fun sn hsn g' hg' => hg sn hsn g' hg')) _ false rfl,
    critStep_ok reading _ (readingHit e) (match_reading_ok e hr) _ _ rfl,
    critStep_ok kanji _ (kanjiHit e) (match_kanji_ok e hk) _ _ rfl]
  rw [entryMatches]
  simp [Bool.or_assoc]

theorem filterLoop_eq (kanji reading glossary : Option String)
    (hcrit : (truthyOptStr kanji || truthyOptStr reading
      || truthyOptStr glossary) = true) (lim : Nat) :
    ∀ (es acc : List EntryElement), (∀ e ∈ es, e.wf = true) →
    filterLoop kanji reading glossary lim acc es
      = .returned (.dict (acc.reverse
          ++ (es.filter (fun e => entryMatches e kanji reading glossary)).take
              (lim + 1 - acc.length))) := by
  intro es
  induction es with
  | nil =>
    intro acc _
    rw [filterLoop]
    simp
  | cons e rest ih =>
    intro acc hwf
    rw [filterLoop]
    by_cases hlen : acc.length ≤ lim
    · rw [if_pos hlen,
        matchQuery_of_wf e (hwf e (List.mem_cons_self e rest)) kanji reading glossary hcrit]
      have hwf' : ∀ x ∈ rest, x.wf = true :=
        fun x hx => hwf x (List.mem_cons_of_mem _ hx)
      cases hm : entryMatches e kanji reading glossary
      · show filterLoop kanji reading glossary lim acc rest = _
        rw [ih acc hwf', List.filter_cons_of_neg (by rw [hm]; simp)]
      · show filterLoop kanji reading glossary lim (e :: acc) rest = _
        rw [ih (e :: acc) hwf', List.filter_cons_of_pos (by rw [hm])]
        have hsucc : lim + 1 - acc.length = (lim - acc.length) + 1 := by omega
        have hsucc' : lim + 1 - (e :: acc).length = lim - acc.length := by
          simp only [List.length_cons]
          omega
        rw [hsucc, hsucc', List.take_succ_cons, List.reverse_cons,
          List.append_assoc, List.singleton_append]
    · rw [if_neg hlen]
      have h0 : lim + 1 - acc.length = 0 := by omega
      rw [h0]
      simp

/-- Claim C4: with at least one criterion provided and well-formed
entries, `filter` collects the earliest matching entries in order and
stops once `limit + 1` of them have been collected (so the result is
the first `limit + 1` matches) when `limit` is non-negative; a `None`
or negative `limit` returns all matching entries. -/
theorem C4_filter_limit (d : JMDict) (seq : Option Int)
    (kanji reading glossary : Option String)
    (hwf : ∀ e ∈ d.entries, e.wf = true)
    (hcrit : (truthyOptStr kanji || truthyOptStr reading
      || truthyOptStr glossary) = true) :
    (∀ lim : Int, 0 ≤ lim →
      d.filter seq kanji reading glossary (some lim)
        = .returned (.dict
            ((d.entries.filter (fun e => entryMatches e kanji reading glossary)).take
              (lim.toNat + 1))))
    ∧ (∀ lim : Int, lim < 0 →
      d.filter seq kanji reading glossary (some lim)
        = .returned (.dict
            (d.entries.filter (fun e => entryMatches e kanji reading glossary))))
    ∧ d.filter seq kanji reading glossary none
        = .returned (.dict
            (d.entries.filter (fun e => entryMatches e kanji reading glossary))) := by
  have hfull : ∀ lim : Nat, d.entries.length ≤ lim →
      (d.entries.filter (fun e => entryMatches e kanji reading glossary)).take
          (lim + 1)
        = d.entries.filter (fun e => entryMatches e kanji reading glossary) := by
    intro lim hlim
    apply List.take_of_length_le
    calc (d.entries.filter _).length ≤ d.entries.length :=
          List.length_filter_le _ _
      _ ≤ lim + 1 := by omega
  refine ⟨fun lim hlim => ?_, fun lim hlim => ?_, ?_⟩
  · rw [JMDict.filter, hcrit]
    show filterLoop kanji reading glossary
        (if lim < 0 then d.entries.length else lim.toNat) [] d.entries = _
    rw [if_neg (by omega), filterLoop_eq kanji reading glossary hcrit _ d.entries [] hwf]
    simp
  · rw [JMDict.filter, hcrit]
    show filterLoop kanji reading glossary
        (if lim < 0 then d.entries.length else lim.toNat) [] d.entries = _
    rw [if_pos hlim, filterLoop_eq kanji reading glossary hcrit _ d.entries [] hwf]
    simp only [List.reverse_nil, List.nil_append, List.length_nil, Nat.sub_zero]
    rw [hfull d.entries.length (Nat.le_refl _)]
  · rw [JMDict.filter, hcrit]
    show filterLoop kanji reading glossary d.entries.length [] d.entries = _
    rw [filterLoop_eq kanji reading glossary hcrit _ d.entries [] hwf]
    simp only [List.reverse_nil, List.nil_append, List.length_nil, Nat.sub_zero]
    rw [hfull d.entries.length (Nat.le_refl _)]

/-- Claim C4 witness: on a three-entry dictionary where entries 1 and
3 contain the queried kanji text, `limit = 0` returns exactly the
first match, `limit = -1` and an omitted limit return both. -/
theorem C4_filter_limit_witness :
    sampleDict3.filter none (some "a") none none (some 0)
        = .returned (.dict [sampleE1])
    ∧ sampleDict3.filter none (some "a") none none (some (-1))
        = .returned (.dict [sampleE1, sampleE3])
    ∧ sampleDict3.filter none (some "a") none none none
        = .returned (.dict [sampleE1, sampleE3]) := by
  have h := C4_filter_limit sampleDict3 none (some "a") none none
    (by decide) (by decide)
  refine ⟨?_, ?_, ?_⟩
  · rw [h.1 0 (by decide)]
    decide
  · rw [h.2.1 (-1) (by decide)]
    decide
  · rw [h.2.2]
    decide

/-! ## Sequence-search claim (C3) -/

theorem str_join_nil : String.join ([] : List String) = "" := rfl

theorem entryNodeOf_name (s : Int) (t : String) :
    (entryNodeOf s t).name = "entry" := rfl

theorem entryNodeOf_ownText (s : Int) (t : String) :
    (entryNodeOf s t).ownText = "" := rfl

theorem entSeqNode_name (s : Int) : (entSeqNode s).name = "ent_seq" := rfl

theorem entSeqNode_ownText (s : Int) : (entSeqNode s).ownText = pyStr s := rfl

theorem kanjiEleNode_name (t : String) : (kanjiEleNode t).name = "k_ele" := rfl

theorem kanjiEleNode_ownText (t : String) : (kanjiEleNode t).ownText = "" := rfl

theorem build_entryNodeOf (s : Int) (t : String) :
    EntryElement.build (entryNodeOf s t) = .ok (builtEntry s t) := by
  simp [EntryElement.build, verify_tag, EntryElement.updateBody, entryNodeOf,
    Node.findFirst, Node.findAll, descList, nodeDesc, entSeqNode, kanjiEleNode,
    Node.text, str_join_nil, String.append_empty, pyInt?_pyStr,
    KanjiElement.build, KanjiElement.updateBody, builtEntry,
    mapME, Bind.bind, Except.bind, Pure.pure, Except.pure]

theorem descAnc_entry_cons (s : Int) (t : String) (rest : List Node) :
    descAnc [] (entryNodeOf s t :: rest)
      = (entryNodeOf s t, []) :: (entSeqNode s, [entryNodeOf s t])
        :: (kanjiEleNode t, [entryNodeOf s t])
        :: (⟨"keb", t, [], []⟩, [kanjiEleNode t, entryNodeOf s t])
        :: descAnc [] rest := by
  simp [descAnc, nodeDescAnc, entryNodeOf, entSeqNode, kanjiEleNode]

theorem findParent_entryNodeOf (s : Int) (t : String) :
    findParent [entryNodeOf s t] "entry" = some (entryNodeOf s t) := by
  simp [findParent, entryNodeOf_name]

theorem search_sequence_soupOf (value : Int) : ∀ items : List (Int × String),
    search_sequence (soupOf items) value
      = .ok ((items.filter (fun it => pyIn (pyStr value) (pyStr it.1))).map
          (fun it => builtEntry it.1 it.2)) := by
  intro items
  induction items with
  | nil => rfl
  | cons it rest ih =>
    obtain ⟨s, t⟩ := it
    have ih' : mapME
          (fun na => EntryElement.buildOpt (findParent na.2 "entry"))
          ((descAnc [] ((soupOf rest).children)).filter
            (fun na => na.1.name == "ent_seq" && pyIn (pyStr value) na.1.ownText))
        = .ok ((rest.filter (fun it => pyIn (pyStr value) (pyStr it.1))).map
            (fun it => builtEntry it.1 it.2)) := by
      simpa [search_sequence] using ih
    rw [search_sequence]
    have hch : (soupOf ((s, t) :: rest)).children
        = entryNodeOf s t :: (soupOf rest).children := by
      simp [soupOf]
    rw [hch, descAnc_entry_cons]
    simp only [List.filter_cons, entryNodeOf_name, entryNodeOf_ownText,
      entSeqNode_name, entSeqNode_ownText, kanjiEleNode_name, kanjiEleNode_ownText]
    have b1 : (("entry" : String) == "ent_seq") = false := rfl
    have b2 : (("k_ele" : String) == "ent_seq") = false := rfl
    have b3 : (("keb" : String) == "ent_seq") = false := rfl
    have b4 : (("ent_seq" : String) == "ent_seq") = true := rfl
    simp only [b1, b2, b3, b4, Bool.false_and, Bool.true_and, Bool.false_eq_true,
      if_false, List.filter_cons, List.filter]
    cases hin : pyIn (pyStr value) (pyStr s) with
    | true =>
      simp only [if_true, List.filter_cons]
      rw [mapME, findParent_entryNodeOf,
        show EntryElement.buildOpt (some (entryNodeOf s t))
          = EntryElement.build (entryNodeOf s t) from rfl,
        build_entryNodeOf, ih']
      simp [hin]
    | false =>
      simp only [Bool.false_eq_true, if_false]
      rw [ih']

/-- Claim C3: the sequence-number search returns exactly the entries,
in document order, whose sequence id's decimal string form contains
the decimal string form of the searched id as a substring — a textual
containment match, not a numeric equality check; in particular
searching `100` also returns an entry whose sequence id is `1000`. -/
theorem C3_search_sequence_substring (value : Int) (items : List (Int × String)) :
    search_sequence (soupOf items) value
      = .ok ((items.filter (fun it => pyIn (pyStr value) (pyStr it.1))).map
          (fun it => builtEntry it.1 it.2))
    ∧ search_sequence (soupOf [(1000, "x")]) 100 = .ok [builtEntry 1000 "x"]
    ∧ ((1000 : Int) = 100) = False := by
  refine ⟨search_sequence_soupOf value items, by decide, by simp⟩

end JMDictXml
